import Mathlib

/-!
Shallow embedding of `src/app/models.py` (SQLModel schema of the CVSR
switch-maintenance application) together with proofs about its validation
and lifecycle behaviour.

Conventions of the embedding:
* Python `Decimal` values are modelled by `PyDecimal`, mirroring
  `decimal.Decimal.as_tuple()`: a sign, a digit tuple and an exponent.
* Pydantic's constrained-decimal check (`max_digits` / `decimal_places`,
  the only constraints the source attaches to latitude and longitude) is
  `validateDecimal`, transcribed from pydantic v1
  `ConstrainedDecimal.validate`.
* `max_length=N` on a string field is modelled as `String.length ≤ N`.
* The email `regex` of `User.email` is modelled by `matchesEmailRegex`,
  a decidable matcher for `^[a-zA-Z0-9_.+-]+@[a-zA-Z0-9-]+\.[a-zA-Z0-9-.]+$`.
* Operations that the repository's spec describes but whose code is not in
  `src/` (applying partial updates, constructing entities from Create
  inputs, projecting Response shapes) are modelled from the spec; each such
  definition carries a doc comment saying so.
-/

namespace CvsrModels

/-- Python `Decimal` in `as_tuple` form: sign (`true` = negative), digit
tuple, exponent. `Decimal("91.00000000")` is
`⟨false, [9,1,0,0,0,0,0,0,0,0], -8⟩`. -/
structure PyDecimal where
  sign : Bool
  digits : List Nat
  exponent : Int
deriving DecidableEq, Repr

/-- Numeric value of a digit tuple, most significant digit first. -/
def digitsVal (ds : List Nat) : Nat :=
  ds.foldl (fun acc d => acc * 10 + d) 0

/-- Rational value of a `PyDecimal`. -/
def PyDecimal.toRat (d : PyDecimal) : ℚ :=
  let m : ℚ := (if d.sign then -1 else 1) * (digitsVal d.digits : ℚ)
  if 0 ≤ d.exponent then m * (10 : ℚ) ^ d.exponent.toNat
  else m / (10 : ℚ) ^ d.exponent.natAbs

/-- Digit / decimal-place count of a `PyDecimal`, as computed by pydantic v1
`ConstrainedDecimal.validate`: returns `(digits, decimals)`. -/
def decimalDigitCounts (d : PyDecimal) : Nat × Nat :=
  if 0 ≤ d.exponent then (d.digits.length + d.exponent.toNat, 0)
  else if d.exponent.natAbs > d.digits.length then
    (d.exponent.natAbs, d.exponent.natAbs)
  else (d.digits.length, d.exponent.natAbs)

/-- Pydantic v1 constrained-decimal validation for
`Field(max_digits := M, decimal_places := P)`: total digits ≤ M, decimal
places ≤ P, whole digits ≤ M − P. This is the entire numeric constraint the
source places on `latitude` and `longitude`; no range bound is attached. -/
def validateDecimal (maxDigits decimalPlaces : Nat) (d : PyDecimal) : Bool :=
  let c := decimalDigitCounts d
  decide (c.1 ≤ maxDigits) && decide (c.2 ≤ decimalPlaces) &&
    decide (c.1 - c.2 ≤ maxDigits - decimalPlaces)

/-- Fixed-point string rendering of a `PyDecimal`, as `str(Decimal(...))`
renders the values used here (no scientific notation needed for
coordinates with eight decimal places). -/
def PyDecimal.toStr (d : PyDecimal) : String :=
  let s := if d.sign then "-" else ""
  let body :=
    if 0 ≤ d.exponent then
      String.mk (d.digits.map fun k => Char.ofNat (48 + k)) ++
        String.mk (List.replicate d.exponent.toNat '0')
    else
      let e := d.exponent.natAbs
      if d.digits.length > e then
        String.mk ((d.digits.take (d.digits.length - e)).map fun k => Char.ofNat (48 + k)) ++
          "." ++
          String.mk ((d.digits.drop (d.digits.length - e)).map fun k => Char.ofNat (48 + k))
      else
        "0." ++ String.mk (List.replicate (e - d.digits.length) '0') ++
          String.mk (d.digits.map fun k => Char.ofNat (48 + k))
  s ++ body

/-- Character class `[a-zA-Z0-9_.+-]` (local part of the email regex). -/
def emailLocalChar (c : Char) : Bool :=
  c.isAlpha || c.isDigit || c = '_' || c = '.' || c = '+' || c = '-'

/-- Character class `[a-zA-Z0-9-]` (first domain label of the email regex). -/
def emailDomainChar (c : Char) : Bool :=
  c.isAlpha || c.isDigit || c = '-'

/-- Character class `[a-zA-Z0-9-.]` (domain tail of the email regex). -/
def emailDomainTailChar (c : Char) : Bool :=
  c.isAlpha || c.isDigit || c = '-' || c = '.'

/-- Matcher for the domain part `[a-zA-Z0-9-]+\.[a-zA-Z0-9-.]+`: some dot
splits the string into a nonempty all-`emailDomainChar` head and a nonempty
all-`emailDomainTailChar` tail. -/
def emailDomainOk (d : List Char) : Bool :=
  (List.range d.length).any fun i =>
    d.get? i == some '.' &&
      !(d.take i).isEmpty && (d.take i).all emailDomainChar &&
      !(d.drop (i + 1)).isEmpty && (d.drop (i + 1)).all emailDomainTailChar

/-- Matcher for the source regex
`^[a-zA-Z0-9_.+-]+@[a-zA-Z0-9-]+\.[a-zA-Z0-9-.]+$` on `User.email`: some
`@` splits the string into a nonempty all-`emailLocalChar` local part and a
matching domain part. -/
def matchesEmailRegex (s : String) : Bool :=
  let l := s.data
  (List.range l.length).any fun i =>
    l.get? i == some '@' &&
      !(l.take i).isEmpty && (l.take i).all emailLocalChar &&
      emailDomainOk (l.drop (i + 1))

/-- Enum `UserRole` from the source: three closed string values. -/
inductive UserRole where
  | ADMINISTRATOR
  | TEKNISI
  | USER
deriving DecidableEq, Repr

/-- String value of each `UserRole` member, as declared in the source. -/
def UserRole.toStr : UserRole → String
  | .ADMINISTRATOR => "Administrator"
  | .TEKNISI => "Teknisi"
  | .USER => "User"

/-- Python `UserRole(s)` member lookup by value: succeeds exactly on the
three declared strings, case-sensitively; any other string raises (here:
`none`). -/
def parseUserRole (s : String) : Option UserRole :=
  if s = "Administrator" then some .ADMINISTRATOR
  else if s = "Teknisi" then some .TEKNISI
  else if s = "User" then some .USER
  else none

/-- Enum `MaintenanceStatus` from the source: three closed string values. -/
inductive MaintenanceStatus where
  | SELESAI
  | TERTUNDA
  | DALAM_PROSES
deriving DecidableEq, Repr

/-- String value of each `MaintenanceStatus` member, as declared in the
source. -/
def MaintenanceStatus.toStr : MaintenanceStatus → String
  | .SELESAI => "Selesai"
  | .TERTUNDA => "Tertunda"
  | .DALAM_PROSES => "Dalam Proses"

/-- Python `MaintenanceStatus(s)` member lookup by value. -/
def parseMaintenanceStatus (s : String) : Option MaintenanceStatus :=
  if s = "Selesai" then some .SELESAI
  else if s = "Tertunda" then some .TERTUNDA
  else if s = "Dalam Proses" then some .DALAM_PROSES
  else none

/-- Calendar date (Python `datetime.date`). -/
structure Date where
  year : Nat
  month : Nat
  day : Nat
deriving DecidableEq, Repr

/-- Timestamp (Python `datetime.datetime`, microseconds elided). -/
structure DateTime where
  year : Nat
  month : Nat
  day : Nat
  hour : Nat
  minute : Nat
  second : Nat
deriving DecidableEq, Repr

/-- Zero-padded two-digit rendering of a field of a date or time. -/
def pad2 (n : Nat) : String :=
  if n < 10 then "0" ++ toString n else toString n

/-- Zero-padded four-digit rendering of a year. -/
def pad4 (n : Nat) : String :=
  if n < 10 then "000" ++ toString n
  else if n < 100 then "00" ++ toString n
  else if n < 1000 then "0" ++ toString n
  else toString n

/-- ISO-8601 rendering of a date, as Python `date.isoformat()`. -/
def Date.iso (d : Date) : String :=
  pad4 d.year ++ "-" ++ pad2 d.month ++ "-" ++ pad2 d.day

/-- ISO-8601 rendering of a timestamp, as Python `datetime.isoformat()`
without microseconds. -/
def DateTime.iso (t : DateTime) : String :=
  pad4 t.year ++ "-" ++ pad2 t.month ++ "-" ++ pad2 t.day ++ "T" ++
    pad2 t.hour ++ ":" ++ pad2 t.minute ++ ":" ++ pad2 t.second

/-- Persistent `User` table model: field-for-field from the source.
Constraints declared on its fields (`max_length`, email `regex`) live in
`userConstraints`. -/
structure User where
  id : Option Nat := none
  username : String
  email : String
  nama_lengkap : String
  role : UserRole := .USER
  is_active : Bool := true
  created_at : DateTime
  updated_at : DateTime
deriving DecidableEq, Repr

/-- Persistent `SwitchDevice` table model, field-for-field from the
source. -/
structure SwitchDevice where
  id : Option Nat := none
  nama_perangkat : String
  lokasi_perangkat : String
  model : String
  nomor_seri : String
  tanggal_implementasi : Date
  ip_address : String
  latitude : PyDecimal
  longitude : PyDecimal
  created_at : DateTime
  updated_at : DateTime
deriving DecidableEq, Repr

/-- Persistent `MaintenanceRecord` table model, field-for-field from the
source. -/
structure MaintenanceRecord where
  id : Option Nat := none
  switch_device_id : Nat
  teknisi_id : Nat
  tanggal_maintenance : Date
  nama_teknisi : String
  deskripsi_pekerjaan : String
  status : MaintenanceStatus := .TERTUNDA
  jenis_maintenance : String := "PM"
  catatan_tambahan : String := ""
  created_at : DateTime
  updated_at : DateTime
deriving DecidableEq, Repr

/-- Input schema `UserCreate`: `username`, `email`, `nama_lengkap`, and
`role` defaulting to `UserRole.USER`, exactly the fields the source
declares (no `is_active`, no timestamps). -/
structure UserCreate where
  username : String
  email : String
  nama_lengkap : String
  role : UserRole := .USER
deriving DecidableEq, Repr

/-- Pydantic validation of a `UserCreate` input: the source constrains only
string lengths (`max_length` 100 / 255 / 200); `role` is enum-typed, and no
pattern is attached to `email` here. -/
def UserCreate.valid (uc : UserCreate) : Bool :=
  decide (uc.username.length ≤ 100) && decide (uc.email.length ≤ 255) &&
    decide (uc.nama_lengkap.length ≤ 200)

/-- Input schema `SwitchDeviceCreate`, fields exactly as in the source. -/
structure SwitchDeviceCreate where
  nama_perangkat : String
  lokasi_perangkat : String
  model : String
  nomor_seri : String
  tanggal_implementasi : Date
  ip_address : String
  latitude : PyDecimal
  longitude : PyDecimal
deriving DecidableEq, Repr

/-- Pydantic validation of a `SwitchDeviceCreate` input: string
`max_length` ceilings, plus the constrained-decimal check
`max_digits=11, decimal_places=8` on `latitude` and
`max_digits=12, decimal_places=8` on `longitude`. -/
def SwitchDeviceCreate.valid (dc : SwitchDeviceCreate) : Bool :=
  decide (dc.nama_perangkat.length ≤ 200) &&
    decide (dc.lokasi_perangkat.length ≤ 500) &&
    decide (dc.model.length ≤ 100) &&
    decide (dc.nomor_seri.length ≤ 100) &&
    decide (dc.ip_address.length ≤ 45) &&
    validateDecimal 11 8 dc.latitude &&
    validateDecimal 12 8 dc.longitude

/-- Input schema `MaintenanceRecordCreate`, fields and defaults exactly as
in the source. -/
structure MaintenanceRecordCreate where
  switch_device_id : Nat
  teknisi_id : Nat
  tanggal_maintenance : Date
  nama_teknisi : String
  deskripsi_pekerjaan : String
  status : MaintenanceStatus := .TERTUNDA
  jenis_maintenance : String := "PM"
  catatan_tambahan : String := ""
deriving DecidableEq, Repr

/-- Pydantic validation of a `MaintenanceRecordCreate` input: string
`max_length` ceilings; `status` is enum-typed. -/
def MaintenanceRecordCreate.valid (mc : MaintenanceRecordCreate) : Bool :=
  decide (mc.nama_teknisi.length ≤ 200) &&
    decide (mc.deskripsi_pekerjaan.length ≤ 2000) &&
    decide (mc.jenis_maintenance.length ≤ 50) &&
    decide (mc.catatan_tambahan.length ≤ 1000)

/-- Input schema `UserUpdate`: every field optional with default `None`,
exactly as in the source. -/
structure UserUpdate where
  username : Option String := none
  email : Option String := none
  nama_lengkap : Option String := none
  role : Option UserRole := none
  is_active : Option Bool := none
deriving DecidableEq, Repr

/-- Input schema `SwitchDeviceUpdate`: every field optional with default
`None`, exactly as in the source. -/
structure SwitchDeviceUpdate where
  nama_perangkat : Option String := none
  lokasi_perangkat : Option String := none
  model : Option String := none
  nomor_seri : Option String := none
  tanggal_implementasi : Option Date := none
  ip_address : Option String := none
  latitude : Option PyDecimal := none
  longitude : Option PyDecimal := none
deriving DecidableEq, Repr

/-- Input schema `MaintenanceRecordUpdate`: every field optional with
default `None`, exactly the six fields the source declares — there is no
`switch_device_id` and no `teknisi_id` field. -/
structure MaintenanceRecordUpdate where
  tanggal_maintenance : Option Date := none
  nama_teknisi : Option String := none
  deskripsi_pekerjaan : Option String := none
  status : Option MaintenanceStatus := none
  jenis_maintenance : Option String := none
  catatan_tambahan : Option String := none
deriving DecidableEq, Repr

/-- Modelled from the spec: entity construction from a validated Create
input is not in `src/` (the repository contains only the schemas); per the
spec's lifecycle section, a `User` row takes every field from the input and
the table model's defaults (`is_active = true`) and timestamps set to the
creation time `ts`. -/
def userFromCreate (uc : UserCreate) (ts : DateTime) : User :=
  { username := uc.username, email := uc.email,
    nama_lengkap := uc.nama_lengkap, role := uc.role,
    created_at := ts, updated_at := ts }

/-- Modelled from the spec: `SwitchDevice` row construction from a
validated Create input, timestamps set to the creation time `ts`. -/
def switchDeviceFromCreate (dc : SwitchDeviceCreate) (ts : DateTime) :
    SwitchDevice :=
  { nama_perangkat := dc.nama_perangkat,
    lokasi_perangkat := dc.lokasi_perangkat, model := dc.model,
    nomor_seri := dc.nomor_seri,
    tanggal_implementasi := dc.tanggal_implementasi,
    ip_address := dc.ip_address, latitude := dc.latitude,
    longitude := dc.longitude, created_at := ts, updated_at := ts }

/-- Modelled from the spec: `MaintenanceRecord` row construction from a
validated Create input, timestamps set to the creation time `ts`. -/
def maintenanceFromCreate (mc : MaintenanceRecordCreate) (ts : DateTime) :
    MaintenanceRecord :=
  { switch_device_id := mc.switch_device_id, teknisi_id := mc.teknisi_id,
    tanggal_maintenance := mc.tanggal_maintenance,
    nama_teknisi := mc.nama_teknisi,
    deskripsi_pekerjaan := mc.deskripsi_pekerjaan, status := mc.status,
    jenis_maintenance := mc.jenis_maintenance,
    catatan_tambahan := mc.catatan_tambahan,
    created_at := ts, updated_at := ts }

/-- Modelled from the spec: applying a partial `UserUpdate` is not in
`src/`; per the spec, each field explicitly present in the input overwrites
the stored value, absent (`none`) fields are left unchanged, and
`updated_at` is set to the mutation time `now`. -/
def applyUserUpdate (u : User) (up : UserUpdate) (now : DateTime) : User :=
  { u with
    username := up.username.getD u.username,
    email := up.email.getD u.email,
    nama_lengkap := up.nama_lengkap.getD u.nama_lengkap,
    role := up.role.getD u.role,
    is_active := up.is_active.getD u.is_active,
    updated_at := now }

/-- Modelled from the spec: applying a partial `SwitchDeviceUpdate`,
analogous to `applyUserUpdate`. -/
def applySwitchDeviceUpdate (d : SwitchDevice) (up : SwitchDeviceUpdate)
    (now : DateTime) : SwitchDevice :=
  { d with
    nama_perangkat := up.nama_perangkat.getD d.nama_perangkat,
    lokasi_perangkat := up.lokasi_perangkat.getD d.lokasi_perangkat,
    model := up.model.getD d.model,
    nomor_seri := up.nomor_seri.getD d.nomor_seri,
    tanggal_implementasi :=
      up.tanggal_implementasi.getD d.tanggal_implementasi,
    ip_address := up.ip_address.getD d.ip_address,
    latitude := up.latitude.getD d.latitude,
    longitude := up.longitude.getD d.longitude,
    updated_at := now }

/-- Modelled from the spec: applying a partial `MaintenanceRecordUpdate`,
analogous to `applyUserUpdate`. The update schema has no
`switch_device_id` / `teknisi_id` field, so those columns are copied
through untouched. -/
def applyMaintenanceUpdate (r : MaintenanceRecord)
    (up : MaintenanceRecordUpdate) (now : DateTime) : MaintenanceRecord :=
  { r with
    tanggal_maintenance := up.tanggal_maintenance.getD r.tanggal_maintenance,
    nama_teknisi := up.nama_teknisi.getD r.nama_teknisi,
    deskripsi_pekerjaan := up.deskripsi_pekerjaan.getD r.deskripsi_pekerjaan,
    status := up.status.getD r.status,
    jenis_maintenance := up.jenis_maintenance.getD r.jenis_maintenance,
    catatan_tambahan := up.catatan_tambahan.getD r.catatan_tambahan,
    updated_at := now }

/-- Output schema `SwitchDeviceResponse`, fields as in the source: dates
and timestamps as strings, plus the computed `google_maps_url`. -/
structure SwitchDeviceResponse where
  id : Nat
  nama_perangkat : String
  lokasi_perangkat : String
  model : String
  nomor_seri : String
  tanggal_implementasi : String
  ip_address : String
  latitude : PyDecimal
  longitude : PyDecimal
  google_maps_url : String
  created_at : String
  updated_at : String
deriving DecidableEq, Repr

/-- Modelled from the spec: `google_maps_url` is "a fixed-format URL
embedding latitude and longitude" — the standard Google-Maps query URL
with the two coordinates rendered verbatim, comma-separated. -/
def googleMapsUrl (lat lng : PyDecimal) : String :=
  "https://www.google.com/maps?q=" ++ lat.toStr ++ "," ++ lng.toStr

/-- Modelled from the spec: the Response projection of a persisted
`SwitchDevice` is not in `src/` (only its shape is); per the spec it copies
the stored fields, converts date/timestamp fields to ISO-8601 text and
computes `google_maps_url` from the coordinates. -/
def switchDeviceResponse (d : SwitchDevice) : SwitchDeviceResponse :=
  { id := d.id.getD 0,
    nama_perangkat := d.nama_perangkat,
    lokasi_perangkat := d.lokasi_perangkat,
    model := d.model,
    nomor_seri := d.nomor_seri,
    tanggal_implementasi := d.tanggal_implementasi.iso,
    ip_address := d.ip_address,
    latitude := d.latitude,
    longitude := d.longitude,
    google_maps_url := googleMapsUrl d.latitude d.longitude,
    created_at := d.created_at.iso,
    updated_at := d.updated_at.iso }

/-- Concrete decimal `Decimal("91.00000000")`: two whole digits, eight
decimal places, value strictly above 90. -/
def dec91 : PyDecimal := ⟨false, [9, 1, 0, 0, 0, 0, 0, 0, 0, 0], -8⟩

/-- Concrete decimal `Decimal("1.23456789")`. -/
def latSample : PyDecimal := ⟨false, [1, 2, 3, 4, 5, 6, 7, 8, 9], -8⟩

/-- Concrete decimal `Decimal("2.34567890")`. -/
def lngSample : PyDecimal := ⟨false, [2, 3, 4, 5, 6, 7, 8, 9, 0], -8⟩

/-- Concrete creation timestamp used by example rows. -/
def ts0 : DateTime := ⟨2024, 1, 1, 0, 0, 0⟩

/-- Concrete later mutation timestamp used by example updates. -/
def now0 : DateTime := ⟨2024, 1, 2, 3, 4, 5⟩

/-- Concrete well-formed `UserCreate` input. -/
def uc0 : UserCreate :=
  { username := "budi", email := "budi@example.com",
    nama_lengkap := "Budi Santoso" }

/-- Concrete `UserCreate` input whose email does not match the address
pattern declared on the `User` table model. -/
def ucBad : UserCreate :=
  { username := "budi", email := "not-an-email",
    nama_lengkap := "Budi Santoso" }

/-- Concrete well-formed `SwitchDeviceCreate` input. -/
def dc0 : SwitchDeviceCreate :=
  { nama_perangkat := "SW-CORE-01",
    lokasi_perangkat := "Gedung A Lantai 2", model := "Catalyst 2960",
    nomor_seri := "SN-0001", tanggal_implementasi := ⟨2023, 5, 1⟩,
    ip_address := "10.0.0.1", latitude := latSample,
    longitude := lngSample }

/-- Concrete `SwitchDeviceCreate` input with latitude 91.00000000, outside
the geographic range. -/
def dc91 : SwitchDeviceCreate := { dc0 with latitude := dec91 }

/-- Concrete well-formed `MaintenanceRecordCreate` input. -/
def mc0 : MaintenanceRecordCreate :=
  { switch_device_id := 1, teknisi_id := 2,
    tanggal_maintenance := ⟨2024, 2, 1⟩, nama_teknisi := "Budi Santoso",
    deskripsi_pekerjaan := "Pembersihan perangkat" }

/-- Concrete stored `User` row. -/
def user0 : User := userFromCreate uc0 ts0

/-- Concrete stored `MaintenanceRecord` row. -/
def rec0 : MaintenanceRecord := maintenanceFromCreate mc0 ts0

/-- Update input with every field absent. -/
def emptyMRUpdate : MaintenanceRecordUpdate := {}

/-- Update input that sets only `status`. -/
def statusOnlyUpdate : MaintenanceRecordUpdate := { status := some .SELESAI }

/-- Update input that sets only `is_active := false`. -/
def deactivateUpdate : UserUpdate := { is_active := some false }

/-- C1: the only constraints the source attaches to `latitude` are
`max_digits = 11` and `decimal_places = 8`; the out-of-range value
91.00000000 satisfies both (10 digits, 8 decimal places, 2 whole digits),
so pydantic validation accepts a latitude strictly greater than 90 —
contradicting the claim, the spec and the code's own range comment. -/
theorem latitude_out_of_range_accepted :
    validateDecimal 11 8 dec91 = true ∧ (90 : ℚ) < dec91.toRat := by
  refine ⟨by decide, ?_⟩
  simp [dec91, PyDecimal.toRat, digitsVal]
  norm_num

/-- C2 counterexample: the all-absent `MaintenanceRecordUpdate` leaves no
field explicitly present, yet applying it at a later mutation time changes
`updated_at`; so "every field not present in the input is unchanged" fails
as stated. -/
theorem empty_update_changes_updated_at :
    (applyMaintenanceUpdate rec0 emptyMRUpdate now0).updated_at ≠
      rec0.updated_at := by
  decide

/-- C2 (amended): every field of each Update schema is optional
(defaulting to absent), and applying an Update leaves every stored field
that is not explicitly present unchanged — except `updated_at`, which is
set to the mutation time; fields outside the Update schema (`id`,
`created_at`, and the foreign keys of `MaintenanceRecord`) are never
overwritten. -/
theorem update_overwrites_only_present_fields :
    (∀ (u : User) (up : UserUpdate) (now : DateTime),
      (up.username = none →
        (applyUserUpdate u up now).username = u.username) ∧
      (up.email = none → (applyUserUpdate u up now).email = u.email) ∧
      (up.nama_lengkap = none →
        (applyUserUpdate u up now).nama_lengkap = u.nama_lengkap) ∧
      (up.role = none → (applyUserUpdate u up now).role = u.role) ∧
      (up.is_active = none →
        (applyUserUpdate u up now).is_active = u.is_active) ∧
      (applyUserUpdate u up now).id = u.id ∧
      (applyUserUpdate u up now).created_at = u.created_at ∧
      (applyUserUpdate u up now).updated_at = now) ∧
    (∀ (d : SwitchDevice) (up : SwitchDeviceUpdate) (now : DateTime),
      (up.nama_perangkat = none →
        (applySwitchDeviceUpdate d up now).nama_perangkat =
          d.nama_perangkat) ∧
      (up.lokasi_perangkat = none →
        (applySwitchDeviceUpdate d up now).lokasi_perangkat =
          d.lokasi_perangkat) ∧
      (up.model = none →
        (applySwitchDeviceUpdate d up now).model = d.model) ∧
      (up.nomor_seri = none →
        (applySwitchDeviceUpdate d up now).nomor_seri = d.nomor_seri) ∧
      (up.tanggal_implementasi = none →
        (applySwitchDeviceUpdate d up now).tanggal_implementasi =
          d.tanggal_implementasi) ∧
      (up.ip_address = none →
        (applySwitchDeviceUpdate d up now).ip_address = d.ip_address) ∧
      (up.latitude = none →
        (applySwitchDeviceUpdate d up now).latitude = d.latitude) ∧
      (up.longitude = none →
        (applySwitchDeviceUpdate d up now).longitude = d.longitude) ∧
      (applySwitchDeviceUpdate d up now).id = d.id ∧
      (applySwitchDeviceUpdate d up now).created_at = d.created_at ∧
      (applySwitchDeviceUpdate d up now).updated_at = now) ∧
    (∀ (r : MaintenanceRecord) (up : MaintenanceRecordUpdate)
        (now : DateTime),
      (up.tanggal_maintenance = none →
        (applyMaintenanceUpdate r up now).tanggal_maintenance =
          r.tanggal_maintenance) ∧
      (up.nama_teknisi = none →
        (applyMaintenanceUpdate r up now).nama_teknisi = r.nama_teknisi) ∧
      (up.deskripsi_pekerjaan = none →
        (applyMaintenanceUpdate r up now).deskripsi_pekerjaan =
          r.deskripsi_pekerjaan) ∧
      (up.status = none →
        (applyMaintenanceUpdate r up now).status = r.status) ∧
      (up.jenis_maintenance = none →
        (applyMaintenanceUpdate r up now).jenis_maintenance =
          r.jenis_maintenance) ∧
      (up.catatan_tambahan = none →
        (applyMaintenanceUpdate r up now).catatan_tambahan =
          r.catatan_tambahan) ∧
      (applyMaintenanceUpdate r up now).id = r.id ∧
      (applyMaintenanceUpdate r up now).switch_device_id =
        r.switch_device_id ∧
      (applyMaintenanceUpdate r up now).teknisi_id = r.teknisi_id ∧
      (applyMaintenanceUpdate r up now).created_at = r.created_at ∧
      (applyMaintenanceUpdate r up now).updated_at = now) := by
  refine ⟨fun u up now => ?_, fun d up now => ?_, fun r up now => ?_⟩
  · exact ⟨fun h => by simp [applyUserUpdate, h],
      fun h => by simp [applyUserUpdate, h],
      fun h => by simp [applyUserUpdate, h],
      fun h => by simp [applyUserUpdate, h],
      fun h => by simp [applyUserUpdate, h], rfl, rfl, rfl⟩
  · exact ⟨fun h => by simp [applySwitchDeviceUpdate, h],
      fun h => by simp [applySwitchDeviceUpdate, h],
      fun h => by simp [applySwitchDeviceUpdate, h],
      fun h => by simp [applySwitchDeviceUpdate, h],
      fun h => by simp [applySwitchDeviceUpdate, h],
      fun h => by simp [applySwitchDeviceUpdate, h],
      fun h => by simp [applySwitchDeviceUpdate, h],
      fun h => by simp [applySwitchDeviceUpdate, h], rfl, rfl, rfl⟩
  · exact ⟨fun h => by simp [applyMaintenanceUpdate, h],
      fun h => by simp [applyMaintenanceUpdate, h],
      fun h => by simp [applyMaintenanceUpdate, h],
      fun h => by simp [applyMaintenanceUpdate, h],
      fun h => by simp [applyMaintenanceUpdate, h],
      fun h => by simp [applyMaintenanceUpdate, h], rfl, rfl, rfl, rfl, rfl⟩

/-- C2 witness: applying the status-only update to a concrete record at a
concrete time preserves the absent `nama_teknisi` field and the foreign
key, and stamps the mutation time. -/
theorem update_overwrites_only_present_fields_witness :
    (applyMaintenanceUpdate rec0 statusOnlyUpdate now0).nama_teknisi =
        rec0.nama_teknisi ∧
      (applyMaintenanceUpdate rec0 statusOnlyUpdate now0).switch_device_id =
        rec0.switch_device_id ∧
      (applyMaintenanceUpdate rec0 statusOnlyUpdate now0).updated_at =
        now0 :=
  have h := update_overwrites_only_present_fields.2.2 rec0
    statusOnlyUpdate now0
  ⟨h.2.1 rfl, h.2.2.2.2.2.2.2.1, h.2.2.2.2.2.2.2.2.2.2⟩

/-- C3 counterexample: `UserCreate` constrains `email` only by
`max_length = 255` — the address regex is declared on the `User` table
model, not on the creation input — so the input with email
`"not-an-email"` is accepted even though the email matches no standard
address pattern. -/
theorem user_create_accepts_nonmatching_email :
    UserCreate.valid ucBad = true ∧
      matchesEmailRegex ucBad.email = false := by
  decide

/-- C3 (amended): the address regex declared on `User.email` accepts
`user@example.com` and rejects `not-an-email`; the `UserCreate` input
itself checks only the 255-character length ceiling, so an accepted
creation input need not match the pattern. -/
theorem email_regex_accepts_and_rejects :
    matchesEmailRegex "user@example.com" = true ∧
      matchesEmailRegex "not-an-email" = false ∧
      UserCreate.valid ucBad = true := by
  decide

/-- C4: enum lookup succeeds exactly on the three declared role strings
and the three declared status strings, case-sensitively; every other
string fails (the Python `ValueError` is modelled by `none`). -/
theorem enum_validation_exact (s : String) :
    ((parseUserRole s).isSome ↔
      (s = "Administrator" ∨ s = "Teknisi" ∨ s = "User")) ∧
    ((parseMaintenanceStatus s).isSome ↔
      (s = "Selesai" ∨ s = "Tertunda" ∨ s = "Dalam Proses")) := by
  refine ⟨?_, ?_⟩ <;>
    simp only [parseUserRole, parseMaintenanceStatus] <;>
    split_ifs <;> simp_all

/-- C5 counterexample: the out-of-range `SwitchDeviceCreate` with latitude
91.00000000 passes input validation, and the entity constructed from it
has a latitude strictly greater than 90, violating the geographic range
constraint of the data model. -/
theorem valid_create_yields_out_of_range_entity :
    SwitchDeviceCreate.valid dc91 = true ∧
      (90 : ℚ) < (switchDeviceFromCreate dc91 ts0).latitude.toRat := by
  refine ⟨by decide, ?_⟩
  show (90 : ℚ) < dec91.toRat
  simp [dec91, PyDecimal.toRat, digitsVal]
  norm_num

/-- C5 (amended): for every Create input that passes validation, the
constructed entity satisfies the constraints its Create input actually
enforces — the string-length ceilings, the digit-count precision bounds on
latitude and longitude, and enum membership of role and status; the email
address pattern and the numeric coordinate ranges are not guaranteed,
because no Create input enforces them. -/
theorem create_entity_satisfies_enforced_constraints :
    (∀ (uc : UserCreate) (ts : DateTime), uc.valid = true →
      (userFromCreate uc ts).username.length ≤ 100 ∧
      (userFromCreate uc ts).email.length ≤ 255 ∧
      (userFromCreate uc ts).nama_lengkap.length ≤ 200 ∧
      (userFromCreate uc ts).role.toStr ∈
        (["Administrator", "Teknisi", "User"] : List String)) ∧
    (∀ (dc : SwitchDeviceCreate) (ts : DateTime), dc.valid = true →
      (switchDeviceFromCreate dc ts).nama_perangkat.length ≤ 200 ∧
      (switchDeviceFromCreate dc ts).lokasi_perangkat.length ≤ 500 ∧
      (switchDeviceFromCreate dc ts).model.length ≤ 100 ∧
      (switchDeviceFromCreate dc ts).nomor_seri.length ≤ 100 ∧
      (switchDeviceFromCreate dc ts).ip_address.length ≤ 45 ∧
      validateDecimal 11 8 (switchDeviceFromCreate dc ts).latitude = true ∧
      validateDecimal 12 8 (switchDeviceFromCreate dc ts).longitude =
        true) ∧
    (∀ (mc : MaintenanceRecordCreate) (ts : DateTime), mc.valid = true →
      (maintenanceFromCreate mc ts).nama_teknisi.length ≤ 200 ∧
      (maintenanceFromCreate mc ts).deskripsi_pekerjaan.length ≤ 2000 ∧
      (maintenanceFromCreate mc ts).jenis_maintenance.length ≤ 50 ∧
      (maintenanceFromCreate mc ts).catatan_tambahan.length ≤ 1000 ∧
      (maintenanceFromCreate mc ts).status.toStr ∈
        (["Selesai", "Tertunda", "Dalam Proses"] : List String)) := by
  refine ⟨fun uc ts h => ?_, fun dc ts h => ?_, fun mc ts h => ?_⟩
  · simp only [UserCreate.valid, Bool.and_eq_true, decide_eq_true_eq] at h
    refine ⟨h.1.1, h.1.2, h.2, ?_⟩
    cases hr : uc.role <;> simp [userFromCreate, UserRole.toStr, hr]
  · simp only [SwitchDeviceCreate.valid, Bool.and_eq_true,
      decide_eq_true_eq] at h
    exact ⟨h.1.1.1.1.1.1, h.1.1.1.1.1.2, h.1.1.1.1.2, h.1.1.1.2,
      h.1.1.2, h.1.2, h.2⟩
  · simp only [MaintenanceRecordCreate.valid, Bool.and_eq_true,
      decide_eq_true_eq] at h
    refine ⟨h.1.1.1, h.1.1.2, h.1.2, h.2, ?_⟩
    cases hs : mc.status <;>
      simp [maintenanceFromCreate, MaintenanceStatus.toStr, hs]

/-- C5 witness: the three concrete valid Create inputs yield entities
satisfying the enforced constraints. -/
theorem create_entity_satisfies_enforced_constraints_witness :
    ((userFromCreate uc0 ts0).username.length ≤ 100 ∧
      (userFromCreate uc0 ts0).email.length ≤ 255 ∧
      (userFromCreate uc0 ts0).nama_lengkap.length ≤ 200 ∧
      (userFromCreate uc0 ts0).role.toStr ∈
        (["Administrator", "Teknisi", "User"] : List String)) ∧
    ((switchDeviceFromCreate dc0 ts0).nama_perangkat.length ≤ 200 ∧
      (switchDeviceFromCreate dc0 ts0).lokasi_perangkat.length ≤ 500 ∧
      (switchDeviceFromCreate dc0 ts0).model.length ≤ 100 ∧
      (switchDeviceFromCreate dc0 ts0).nomor_seri.length ≤ 100 ∧
      (switchDeviceFromCreate dc0 ts0).ip_address.length ≤ 45 ∧
      validateDecimal 11 8 (switchDeviceFromCreate dc0 ts0).latitude =
        true ∧
      validateDecimal 12 8 (switchDeviceFromCreate dc0 ts0).longitude =
        true) ∧
    ((maintenanceFromCreate mc0 ts0).nama_teknisi.length ≤ 200 ∧
      (maintenanceFromCreate mc0 ts0).deskripsi_pekerjaan.length ≤ 2000 ∧
      (maintenanceFromCreate mc0 ts0).jenis_maintenance.length ≤ 50 ∧
      (maintenanceFromCreate mc0 ts0).catatan_tambahan.length ≤ 1000 ∧
      (maintenanceFromCreate mc0 ts0).status.toStr ∈
        (["Selesai", "Tertunda", "Dalam Proses"] : List String)) :=
  ⟨create_entity_satisfies_enforced_constraints.1 uc0 ts0 (by decide),
    create_entity_satisfies_enforced_constraints.2.1 dc0 ts0 (by decide),
    create_entity_satisfies_enforced_constraints.2.2 mc0 ts0 (by decide)⟩

/-- C6: a Create input that omits the defaulted fields yields the declared
defaults — `role = User` and `is_active = true` for a user, and
`status = Tertunda`, `jenis_maintenance = "PM"`,
`catatan_tambahan = ""` for a maintenance record. -/
theorem create_defaults_applied (u e n : String) (sdid tid : Nat)
    (td : Date) (nt dp : String) (ts : DateTime) :
    (userFromCreate
        { username := u, email := e, nama_lengkap := n } ts).role =
      UserRole.USER ∧
    (userFromCreate
        { username := u, email := e, nama_lengkap := n } ts).is_active =
      true ∧
    (maintenanceFromCreate
        { switch_device_id := sdid, teknisi_id := tid,
          tanggal_maintenance := td, nama_teknisi := nt,
          deskripsi_pekerjaan := dp } ts).status =
      MaintenanceStatus.TERTUNDA ∧
    (maintenanceFromCreate
        { switch_device_id := sdid, teknisi_id := tid,
          tanggal_maintenance := td, nama_teknisi := nt,
          deskripsi_pekerjaan := dp } ts).jenis_maintenance = "PM" ∧
    (maintenanceFromCreate
        { switch_device_id := sdid, teknisi_id := tid,
          tanggal_maintenance := td, nama_teknisi := nt,
          deskripsi_pekerjaan := dp } ts).catatan_tambahan = "" :=
  ⟨rfl, rfl, rfl, rfl, rfl⟩

/-- C7: both timestamps of every entity constructed from a Create input
equal the creation time, and applying any Update stamps `updated_at` with
the mutation time — so whenever the mutation time differs from the stored
`updated_at`, the update changes `updated_at`. -/
theorem timestamps_at_creation_and_mutation :
    (∀ (uc : UserCreate) (ts : DateTime),
      (userFromCreate uc ts).created_at = ts ∧
        (userFromCreate uc ts).updated_at = ts) ∧
    (∀ (dc : SwitchDeviceCreate) (ts : DateTime),
      (switchDeviceFromCreate dc ts).created_at = ts ∧
        (switchDeviceFromCreate dc ts).updated_at = ts) ∧
    (∀ (mc : MaintenanceRecordCreate) (ts : DateTime),
      (maintenanceFromCreate mc ts).created_at = ts ∧
        (maintenanceFromCreate mc ts).updated_at = ts) ∧
    (∀ (u : User) (up : UserUpdate) (now : DateTime),
      (applyUserUpdate u up now).updated_at = now ∧
        (now ≠ u.updated_at →
          (applyUserUpdate u up now).updated_at ≠ u.updated_at)) ∧
    (∀ (d : SwitchDevice) (up : SwitchDeviceUpdate) (now : DateTime),
      (applySwitchDeviceUpdate d up now).updated_at = now ∧
        (now ≠ d.updated_at →
          (applySwitchDeviceUpdate d up now).updated_at ≠
            d.updated_at)) ∧
    (∀ (r : MaintenanceRecord) (up : MaintenanceRecordUpdate)
        (now : DateTime),
      (applyMaintenanceUpdate r up now).updated_at = now ∧
        (now ≠ r.updated_at →
          (applyMaintenanceUpdate r up now).updated_at ≠
            r.updated_at)) :=
  ⟨fun _ _ => ⟨rfl, rfl⟩, fun _ _ => ⟨rfl, rfl⟩, fun _ _ => ⟨rfl, rfl⟩,
    fun _ _ _ => ⟨rfl, fun h => h⟩, fun _ _ _ => ⟨rfl, fun h => h⟩,
    fun _ _ _ => ⟨rfl, fun h => h⟩⟩

/-- C7 witness: the concrete user row carries its creation time in both
timestamp fields, and updating it at the distinct later time `now0`
changes `updated_at`. -/
theorem timestamps_at_creation_and_mutation_witness :
    ((userFromCreate uc0 ts0).created_at = ts0 ∧
      (userFromCreate uc0 ts0).updated_at = ts0) ∧
    now0 ≠ user0.updated_at ∧
    (applyUserUpdate user0 deactivateUpdate now0).updated_at ≠
      user0.updated_at :=
  have hne : now0 ≠ user0.updated_at := by decide
  ⟨timestamps_at_creation_and_mutation.1 uc0 ts0, hne,
    (timestamps_at_creation_and_mutation.2.2.2.1 user0 deactivateUpdate
      now0).2 hne⟩

/-- C8: the Response projection of a persisted `SwitchDevice` renders its
date and both timestamps as ISO-8601 text and computes `google_maps_url`
from the coordinates; for latitude 1.23456789 and longitude 2.34567890 the
URL contains both decimal values verbatim, and the ISO renderings have the
standard `YYYY-MM-DD` / `YYYY-MM-DDTHH:MM:SS` shapes. -/
theorem switch_device_response_projection :
    (∀ d : SwitchDevice,
      (switchDeviceResponse d).tanggal_implementasi =
        d.tanggal_implementasi.iso ∧
      (switchDeviceResponse d).created_at = d.created_at.iso ∧
      (switchDeviceResponse d).updated_at = d.updated_at.iso ∧
      (switchDeviceResponse d).google_maps_url =
        googleMapsUrl d.latitude d.longitude) ∧
    (∃ a b : String,
      googleMapsUrl latSample lngSample = a ++ "1.23456789" ++ b) ∧
    (∃ a b : String,
      googleMapsUrl latSample lngSample = a ++ "2.34567890" ++ b) ∧
    DateTime.iso ⟨2024, 1, 2, 3, 4, 5⟩ = "2024-01-02T03:04:05" ∧
    Date.iso ⟨2023, 11, 30⟩ = "2023-11-30" := by
  refine ⟨fun d => ⟨rfl, rfl, rfl, rfl⟩,
    ⟨"https://www.google.com/maps?q=", ",2.34567890", by decide⟩,
    ⟨"https://www.google.com/maps?q=1.23456789,", "", by decide⟩,
    by decide, by decide⟩

/-- C9: `MaintenanceRecordUpdate` declares neither `switch_device_id` nor
`teknisi_id`, so applying any update to any stored record leaves both
foreign keys unchanged — the record-to-device and record-to-technician
linkage is immutable through the update interface. -/
theorem maintenance_update_preserves_foreign_keys
    (r : MaintenanceRecord) (up : MaintenanceRecordUpdate)
    (now : DateTime) :
    (applyMaintenanceUpdate r up now).switch_device_id =
        r.switch_device_id ∧
      (applyMaintenanceUpdate r up now).teknisi_id = r.teknisi_id :=
  ⟨rfl, rfl⟩

/-- C10: `UserCreate` has no `is_active` field, so every user constructed
from a creation input is active; deactivation is possible afterwards
through a `UserUpdate` carrying `is_active = false`. -/
theorem user_created_active_deactivated_by_update :
    (∀ (uc : UserCreate) (ts : DateTime),
      (userFromCreate uc ts).is_active = true) ∧
    (∀ (u : User) (up : UserUpdate) (now : DateTime),
      up.is_active = some false →
        (applyUserUpdate u up now).is_active = false) := by
  refine ⟨fun uc ts => rfl, fun u up now h => ?_⟩
  simp [applyUserUpdate, h]

/-- C10 witness: the concrete created user is active, and applying the
deactivating update turns `is_active` off. -/
theorem user_created_active_deactivated_by_update_witness :
    (userFromCreate uc0 ts0).is_active = true ∧
      (applyUserUpdate user0 deactivateUpdate now0).is_active = false :=
  ⟨user_created_active_deactivated_by_update.1 uc0 ts0,
    user_created_active_deactivated_by_update.2 user0 deactivateUpdate
      now0 rfl⟩

end CvsrModels
